import Mathlib

/-!
Verification of the atmospheric state estimation subsystem of the
o2-life-support repository.

The subsystem recurs in two main variants:
  * `src/idpCreateHome.py` (and its near-identical sibling `src/integrated.py`):
    the drawing-based habitat designer, `DrawingApp.run_simulation_step`,
    `Sensor.read_gas_levels`, `DrawingApp.update_gp_model_and_predict`,
    `DrawingApp.initialize_gas_fields`.
  * `src/better-sample.py`: `ColonySimulation.update_simulation`,
    `Sensor.read_o2` / `Sensor.read_co2`, `Door`.

Real-valued program quantities (Python floats) are embedded as exact
rationals (`ℚ`); decimal literals of the source are taken at their decimal
value.  Calls `np.random.normal(mu, scale)` are embedded as
`mu + scale * z` where `z` is an explicitly-passed standard-normal draw.
Sequential in-place mutation of room objects is embedded as functional
update of the room list keyed by room id; where a Python loop mutates two
distinct objects in sequence, the embedding performs the extensionally
identical simultaneous update of the list (the intermediate state is never
observed, and the aliased corner cases are noted at each definition).
-/

/-- Python's builtin `max` on two numbers, as used by `max(0, ...)`
clamps.  (Definitionally `if a ≤ b then b else a`, which the kernel can
evaluate on concrete rationals; equal to Mathlib's `max` by
`pymax_eq_max`.) -/
def pymax (a b : ℚ) : ℚ := if a ≤ b then b else a

/-- Python's builtin `min` on two numbers. -/
def pymin (a b : ℚ) : ℚ := if a ≤ b then a else b

namespace IdpCreateHome

/-- Constant `NORMAL_O2_PERCENTAGE` from `src/idpCreateHome.py`. -/
def NORMAL_O2_PERCENTAGE : ℚ := 21.0

/-- Constant `NORMAL_CO2_PPM`. -/
def NORMAL_CO2_PPM : ℚ := 400.0

/-- Constant `MARS_O2_PERCENTAGE`. -/
def MARS_O2_PERCENTAGE : ℚ := 0.13

/-- Constant `MARS_CO2_PERCENTAGE` (a percentage). -/
def MARS_CO2_PERCENTAGE : ℚ := 95.0

/-- Constant `MARS_CO2_PPM = MARS_CO2_PERCENTAGE * 10000` (950,000 ppm). -/
def MARS_CO2_PPM : ℚ := MARS_CO2_PERCENTAGE * 10000

/-- Constant `HUMAN_O2_CONSUMPTION_PER_HOUR_PERSON` (percentage points/hour/person). -/
def HUMAN_O2_CONSUMPTION_PER_HOUR_PERSON : ℚ := 0.035

/-- Constant `HUMAN_CO2_PRODUCTION_PER_HOUR_PERSON` (percentage points/hour/person). -/
def HUMAN_CO2_PRODUCTION_PER_HOUR_PERSON : ℚ := 0.042

/-- Constant `HUMAN_CO2_PRODUCTION_PPM_PER_HOUR_PERSON = 0.042 * 10000 = 420`. -/
def HUMAN_CO2_PRODUCTION_PPM_PER_HOUR_PERSON : ℚ :=
  HUMAN_CO2_PRODUCTION_PER_HOUR_PERSON * 10000

/-- Constant `SIM_STEP_REAL_TIME_SECONDS`. -/
def SIM_STEP_REAL_TIME_SECONDS : ℚ := 0.1

/-- Constant `SIM_TIME_SCALE_FACTOR = 1.0 / 36.0`. -/
def SIM_TIME_SCALE_FACTOR : ℚ := 1 / 36

/-- Constant `SIM_DT_HOURS = SIM_STEP_REAL_TIME_SECONDS * SIM_TIME_SCALE_FACTOR`
(= 1/360 simulated hours per tick). -/
def SIM_DT_HOURS : ℚ := SIM_STEP_REAL_TIME_SECONDS * SIM_TIME_SCALE_FACTOR

/-- Constant `DEFAULT_BREACH_FLOW_RATE_PER_HOUR`. -/
def DEFAULT_BREACH_FLOW_RATE_PER_HOUR : ℚ := 0.1

/-- Constant `DOOR_FLOW_RATE_OPEN_PER_HOUR`. -/
def DOOR_FLOW_RATE_OPEN_PER_HOUR : ℚ := 0.2

/-- Constant `DOOR_FLOW_RATE_CLOSED_PER_HOUR` ("Slight leak for closed doors"). -/
def DOOR_FLOW_RATE_CLOSED_PER_HOUR : ℚ := 0.005

/-- Constant `CELL_SIZE` (pixels per grid cell). -/
def CELL_SIZE : ℚ := 10

/-- Constant `AXIS_MARGIN`. -/
def AXIS_MARGIN : ℚ := 30

/-- The simulation-relevant state of a `RoomShape` object
(`src/idpCreateHome.py`, class `RoomShape`): `o2_level` (percent),
`co2_level` (ppm), `population`, `breach_level`, and the value returned by
`get_volume_liters()` (strictly positive for every drawable shape; the
step only tests it against 0).  Canvas/GUI fields are omitted. -/
structure Room where
  id : ℕ
  o2_level : ℚ
  co2_level : ℚ
  population : ℕ
  breach_level : ℚ
  volume_liters : ℚ
  deriving DecidableEq, Repr

/-- A `Door` object (`src/idpCreateHome.py`, class `Door`): `room2_id` is
`none` for an external (ambient/Mars) door.  Canvas fields omitted. -/
structure Door where
  room1_id : ℕ
  room2_id : Option ℕ
  is_open : Bool
  deriving DecidableEq, Repr

/-- `DrawingApp.get_room_by_id`: first room in the list with the given id
(linear scan with early return). -/
def get_room_by_id (rooms : List Room) (room_id : ℕ) : Option Room :=
  match rooms with
  | [] => none
  | room :: rest => if room.id = room_id then some room else get_room_by_id rest room_id

/-- Part 1 of `DrawingApp.run_simulation_step` for one room: human
respiration (clamped at 0) followed by breach exchange with Mars (clamped
at 0).  Rooms whose volume is `<= 0` are skipped (`continue`).  The time
step is kept as a parameter `dt`; the caller passes `SIM_DT_HOURS`. -/
def room_respiration_breach (dt : ℚ) (room : Room) : Room :=
  if room.volume_liters ≤ 0 then room else
  let room1 :=
    if 0 < room.population then
      let o2_consumed_percent :=
        HUMAN_O2_CONSUMPTION_PER_HOUR_PERSON * room.population * dt
      let co2_produced_ppm :=
        HUMAN_CO2_PRODUCTION_PPM_PER_HOUR_PERSON * room.population * dt
      { room with o2_level := pymax 0 (room.o2_level - o2_consumed_percent),
                  co2_level := pymax 0 (room.co2_level + co2_produced_ppm) }
    else room
  if 0 < room1.breach_level then
    let breach_exchange_fraction :=
      room1.breach_level * DEFAULT_BREACH_FLOW_RATE_PER_HOUR * dt
    let o2_to_mars := (room1.o2_level - MARS_O2_PERCENTAGE) * breach_exchange_fraction
    let co2_to_mars := (room1.co2_level - MARS_CO2_PPM) * breach_exchange_fraction
    { room1 with o2_level := pymax 0 (room1.o2_level - o2_to_mars),
                 co2_level := pymax 0 (room1.co2_level - co2_to_mars) }
  else room1

/-- Part 1c of `DrawingApp.run_simulation_step`: gas exchange through one
door.  `room1` is looked up by id (skip if absent); the exchange target is
`room2`'s current levels, or the Mars baseline when the door is external
(`room2_id` is `none`) or dangling (`get_room_by_id` returns `None`).
The Python code mutates `room1` then `room2` in sequence and clamps each
at 0; since the flow amounts are computed before any mutation and the two
gases use disjoint fields, this equals the simultaneous keyed update
below.  (When `room1` and `room2` are the same object the flows are 0 and
both renderings reduce to clamping that room at 0.) -/
def apply_door_exchange (dt : ℚ) (rooms : List Room) (door : Door) : List Room :=
  match get_room_by_id rooms door.room1_id with
  | none => rooms
  | some room1 =>
    let flow_rate_this_step :=
      (if door.is_open then DOOR_FLOW_RATE_OPEN_PER_HOUR
       else DOOR_FLOW_RATE_CLOSED_PER_HOUR) * dt
    let room2? : Option Room :=
      match door.room2_id with
      | none => none
      | some j => get_room_by_id rooms j
    let o2_target_room2 :=
      match room2? with
      | some r2 => r2.o2_level
      | none => MARS_O2_PERCENTAGE
    let co2_target_room2 :=
      match room2? with
      | some r2 => r2.co2_level
      | none => MARS_CO2_PPM
    let o2_flow_to_room1 := (o2_target_room2 - room1.o2_level) * flow_rate_this_step
    let co2_flow_to_room1 := (co2_target_room2 - room1.co2_level) * flow_rate_this_step
    rooms.map (fun r =>
      let ra :=
        if r.id = door.room1_id then
          { r with o2_level := pymax 0 (r.o2_level + o2_flow_to_room1),
                   co2_level := pymax 0 (r.co2_level + co2_flow_to_room1) }
        else r
      match room2? with
      | some r2 =>
        if ra.id = r2.id then
          { ra with o2_level := pymax 0 (ra.o2_level - o2_flow_to_room1),
                    co2_level := pymax 0 (ra.co2_level - co2_flow_to_room1) }
        else ra
      | none => ra)

/-- The gas-update portion of `DrawingApp.run_simulation_step` (parts 1a-1c),
with the time step as a parameter: respiration and breach for every room,
then the door exchanges applied sequentially in door-list order. -/
def run_simulation_step_gas (dt : ℚ) (rooms : List Room) (doors : List Door) :
    List Room :=
  doors.foldl (apply_door_exchange dt) (rooms.map (room_respiration_breach dt))

/-- `DrawingApp.run_simulation_step` (gas-update portion) at the program's
actual time step `SIM_DT_HOURS`. -/
def run_simulation_step (rooms : List Room) (doors : List Door) : List Room :=
  run_simulation_step_gas SIM_DT_HOURS rooms doors

/-- A finite sequence of simulation step calls, each with its own
`dt_hours` and door configuration. -/
def run_steps (steps : List (ℚ × List Door)) (rooms : List Room) : List Room :=
  steps.foldl (fun st p => run_simulation_step_gas p.1 st p.2) rooms

/-- The simulation-relevant state of a `Sensor` object
(`src/idpCreateHome.py`, class `Sensor`). -/
structure Sensor where
  x : ℚ
  y : ℚ
  o2_variance : ℚ
  co2_variance : ℚ
  sensing_radius : ℚ
  last_o2_reading : Option ℚ
  last_co2_reading : Option ℚ
  deriving DecidableEq, Repr

/-- `Sensor.read_gas_levels`: each reading is
`max(0, np.random.normal(true_value, math.sqrt(variance)))`, stored in the
sensor's last-reading fields and returned.  The normal draw is embedded as
`true_value + sd * z` with `z` a standard-normal draw; `sd` stands for
`math.sqrt(variance)` (irrational in general) and is passed explicitly,
constrained in the theorems by `0 ≤ sd` and `sd ^ 2 = variance`. -/
def read_gas_levels (s : Sensor) (true_o2_value true_co2_value : ℚ)
    (sd_o2 sd_co2 : ℚ) (z_o2 z_co2 : ℚ) : (ℚ × ℚ) × Sensor :=
  let last_o2 := pymax 0 (true_o2_value + sd_o2 * z_o2)
  let last_co2 := pymax 0 (true_co2_value + sd_co2 * z_co2)
  ((last_o2, last_co2),
   { s with last_o2_reading := some last_o2, last_co2_reading := some last_co2 })

/-- The geometry of a `RoomShape`: `RoomRectangle` (top-left corner,
width, height) or `RoomCircle` (center, radius). -/
inductive ShapeGeom where
  | rect (x y width height : ℚ)
  | circle (x y radius : ℚ)
  deriving DecidableEq, Repr

/-- `RoomRectangle.contains_point` / `RoomCircle.contains_point`. -/
def contains_point : ShapeGeom → ℚ → ℚ → Prop
  | ShapeGeom.rect x y w h, px, py =>
      x ≤ px ∧ px ≤ x + w ∧ y ≤ py ∧ py ≤ y + h
  | ShapeGeom.circle x y radius, px, py =>
      (px - x) ^ 2 + (py - y) ^ 2 ≤ radius ^ 2

instance contains_point.instDecidable (s : ShapeGeom) (px py : ℚ) :
    Decidable (contains_point s px py) :=
  match s with
  | ShapeGeom.rect _ _ _ _ => inferInstanceAs (Decidable (_ ∧ _ ∧ _ ∧ _))
  | ShapeGeom.circle _ _ _ => inferInstanceAs (Decidable (_ ≤ _))

/-- A room as seen by the ground-truth grid code: its shape and its
current gas levels. -/
structure GeoRoom where
  shape : ShapeGeom
  o2_level : ℚ
  co2_level : ℚ
  deriving DecidableEq, Repr

/-- `DrawingApp._sim_to_canvas_coords_center`: the canvas coordinates of
the center of grid cell `(sim_row, sim_col)`; returns (x, y). -/
def sim_to_canvas_coords_center (sim_row sim_col : ℕ) : ℚ × ℚ :=
  (AXIS_MARGIN + sim_col * CELL_SIZE + CELL_SIZE / 2,
   AXIS_MARGIN + sim_row * CELL_SIZE + CELL_SIZE / 2)

/-- The inner room loop of the ground-truth rebuild: the first room in
list order whose shape contains the given canvas point (`break` after the
first hit), if any. -/
def first_room_containing (rooms : List GeoRoom) (px py : ℚ) : Option GeoRoom :=
  match rooms with
  | [] => none
  | room :: rest =>
    if contains_point room.shape px py then some room
    else first_room_containing rest px py

/-- Part 2 of `DrawingApp.run_simulation_step` (ground-truth O2 rebuild):
the field is filled with `MARS_O2_PERCENTAGE`, then every cell whose mask
bit is set and whose center is contained in some room receives the first
such room's level. -/
def rebuild_ground_truth_o2 (map_mask : ℕ → ℕ → Bool) (rooms : List GeoRoom)
    (r_idx c_idx : ℕ) : ℚ :=
  if map_mask r_idx c_idx then
    let c := sim_to_canvas_coords_center r_idx c_idx
    match first_room_containing rooms c.1 c.2 with
    | some room => room.o2_level
    | none => MARS_O2_PERCENTAGE
  else MARS_O2_PERCENTAGE

/-- Part 2 of `DrawingApp.run_simulation_step` (ground-truth CO2 rebuild). -/
def rebuild_ground_truth_co2 (map_mask : ℕ → ℕ → Bool) (rooms : List GeoRoom)
    (r_idx c_idx : ℕ) : ℚ :=
  if map_mask r_idx c_idx then
    let c := sim_to_canvas_coords_center r_idx c_idx
    match first_room_containing rooms c.1 c.2 with
    | some room => room.co2_level
    | none => MARS_CO2_PPM
  else MARS_CO2_PPM

/-- `DrawingApp.initialize_gas_fields`, O2 field: filled with
`MARS_O2_PERCENTAGE`, then for each room in turn (whose `o2_level` is
first reset to `NORMAL_O2_PERCENTAGE`) every cell whose center the room
contains is overwritten with that reset level. -/
def init_gas_fields_o2 (rooms : List GeoRoom) (r_idx c_idx : ℕ) : ℚ :=
  rooms.foldl
    (fun field room => fun ri ci =>
      let c := sim_to_canvas_coords_center ri ci
      if contains_point room.shape c.1 c.2 then NORMAL_O2_PERCENTAGE
      else field ri ci)
    (fun _ _ => MARS_O2_PERCENTAGE) r_idx c_idx

/-- `DrawingApp.initialize_gas_fields`, CO2 field (rooms reset to
`NORMAL_CO2_PPM`). -/
def init_gas_fields_co2 (rooms : List GeoRoom) (r_idx c_idx : ℕ) : ℚ :=
  rooms.foldl
    (fun field room => fun ri ci =>
      let c := sim_to_canvas_coords_center ri ci
      if contains_point room.shape c.1 c.2 then NORMAL_CO2_PPM
      else field ri ci)
    (fun _ _ => MARS_CO2_PPM) r_idx c_idx

/-- The gas species selected by `self.current_gas_view`. -/
inductive Gas where
  | O2
  | CO2
  deriving DecidableEq, Repr

/-- The string value of `self.current_gas_view.get()`. -/
def gas_label : Gas → String
  | Gas.O2 => "O2"
  | Gas.CO2 => "CO2"

/-- A gas concentration field over the simulation grid, indexed by
`(row, col)` — both the ground-truth arrays and `gp_reconstructed_field`. -/
def GasField : Type := ℕ × ℕ → ℚ

/-- The data a `GaussianProcessRegressor` was last fitted on (`fit(sX, sy)`):
sensor canvas coordinates and the matching noisy readings. -/
structure FitData where
  sensor_X : List (ℚ × ℚ)
  sensor_y : List ℚ
  deriving DecidableEq, Repr

/-- The mutable state of one `GaussianProcessRegressor`: `none` until the
first successful `fit`. -/
structure GPModel where
  fitted : Option FitData
  deriving DecidableEq, Repr

/-- The GP-related attributes of `DrawingApp`: one regressor per gas
(`none` when scikit-learn is unavailable) and the single reconstructed
field `gp_reconstructed_field` (commented "Current gas view" in the
source). -/
structure EstimatorState where
  gp_model_o2 : Option GPModel
  gp_model_co2 : Option GPModel
  gp_reconstructed_field : GasField

/-- `np.clip` of a scalar to `[lo, hi]`. -/
def np_clip (lo hi x : ℚ) : ℚ := pymin hi (pymax lo x)

/-- The per-gas `max_clip` of `DrawingApp.update_gp_model_and_predict`:
`NORMAL_O2_PERCENTAGE * 1.5` for O2 and `MARS_CO2_PPM * 1.1` for CO2
(the float literals taken at their decimal values). -/
def max_clip : Gas → ℚ
  | Gas.O2 => NORMAL_O2_PERCENTAGE * 1.5
  | Gas.CO2 => MARS_CO2_PPM * 1.1

/-- Status suffix `" (No Sklearn - Showing Truth for {gas})"`. -/
def status_no_sklearn (view : Gas) : String :=
  " (No Sklearn - Showing Truth for " ++ gas_label view ++ ")"

/-- Status suffix `" (No Sensors - Showing Truth for {gas})"`. -/
def status_no_sensors (view : Gas) : String :=
  " (No Sensors - Showing Truth for " ++ gas_label view ++ ")"

/-- Status suffix `" (GP Error - Showing Truth for {gas})"`. -/
def status_gp_error (view : Gas) : String :=
  " (GP Error - Showing Truth for " ++ gas_label view ++ ")"

/-- Status suffix `" (No Sensor Data for GP - Showing Truth for {gas})"`. -/
def status_no_sensor_data (view : Gas) : String :=
  " (No Sensor Data for GP - Showing Truth for " ++ gas_label view ++ ")"

/-- Status suffix `" (GP for {gas})"` (the non-fallback default). -/
def status_gp (view : Gas) : String :=
  " (GP for " ++ gas_label view ++ ")"

/-- The four fallback status suffixes of
`DrawingApp.update_gp_model_and_predict`, none of which is a raised
exception. -/
def fallback_statuses (view : Gas) : List String :=
  [status_no_sklearn view, status_no_sensors view,
   status_gp_error view, status_no_sensor_data view]

/-- `DrawingApp.update_gp_model_and_predict` (the near-identical
`src/integrated.py` version has the same branch structure).  Inputs that
the method reads from `self` or from the environment are parameters:

* `view` — `self.current_gas_view`;
* `sklearn_available` — module flag `SKLEARN_AVAILABLE`;
* `sensors` — `self.sensors_list` (only emptiness is tested);
* `sensor_data` — the paired `(sensor_X, sensor_y)` arrays produced by
  `collect_sensor_data_for_gp` (which appends to both arrays once per
  sensor, so they always have equal length — pairing renders
  `sensor_X.shape[0] == sensor_y.shape[0]`);
* `fit_predict` — the outcome of `current_gp_model.fit(...)` followed by
  `current_gp_model.predict(...)`: either the predicted field or the
  exception caught by the `except` block.

Returns the new estimator state and the status suffix; every branch
returns normally (the `except Exception` block swallows the error). -/
def update_gp_model_and_predict (st : EstimatorState) (view : Gas)
    (sklearn_available : Bool) (sensors : List Sensor)
    (sensor_data : List ((ℚ × ℚ) × ℚ)) (fit_predict : Except String GasField)
    (o2_truth co2_truth : GasField) : EstimatorState × String :=
  let current_gp_model :=
    match view with
    | Gas.O2 => st.gp_model_o2
    | Gas.CO2 => st.gp_model_co2
  let active_ground_truth_field :=
    match view with
    | Gas.O2 => o2_truth
    | Gas.CO2 => co2_truth
  if !sklearn_available || current_gp_model.isNone then
    ({ st with gp_reconstructed_field := active_ground_truth_field },
     status_no_sklearn view)
  else if sensors.isEmpty then
    ({ st with gp_reconstructed_field := active_ground_truth_field },
     status_no_sensors view)
  else if 0 < sensor_data.length then
    match fit_predict with
    | Except.ok predicted =>
      let fitted_model : Option GPModel :=
        some { fitted := some { sensor_X := sensor_data.map Prod.fst,
                                sensor_y := sensor_data.map Prod.snd } }
      ({ gp_model_o2 :=
           match view with
           | Gas.O2 => fitted_model
           | Gas.CO2 => st.gp_model_o2,
         gp_model_co2 :=
           match view with
           | Gas.O2 => st.gp_model_co2
           | Gas.CO2 => fitted_model,
         gp_reconstructed_field :=
           fun cell => np_clip 0 (max_clip view) (predicted cell) },
       status_gp view)
    | Except.error _ =>
      ({ st with gp_reconstructed_field := active_ground_truth_field },
       status_gp_error view)
  else
    ({ st with gp_reconstructed_field := active_ground_truth_field },
     status_no_sensor_data view)

end IdpCreateHome

namespace BetterSample

/-- Constant `NORMAL_O2_PERCENTAGE` from `src/better-sample.py`. -/
def NORMAL_O2_PERCENTAGE : ℚ := 21.0

/-- Constant `NORMAL_CO2_PPM`. -/
def NORMAL_CO2_PPM : ℚ := 400.0

/-- Constant `MARS_O2_PERCENTAGE`. -/
def MARS_O2_PERCENTAGE : ℚ := 0.13

/-- Constant `MARS_CO2_PERCENTAGE`. -/
def MARS_CO2_PERCENTAGE : ℚ := 95.0

/-- `MarsEnvironment.co2_level = MARS_CO2_PERCENTAGE * 10000` (ppm). -/
def MARS_ENV_CO2_PPM : ℚ := MARS_CO2_PERCENTAGE * 10000

/-- Constant `HUMAN_O2_CONSUMPTION_PER_HOUR` (percentage points/hour/person). -/
def HUMAN_O2_CONSUMPTION_PER_HOUR : ℚ := 0.02

/-- Constant `HUMAN_CO2_PRODUCTION_PER_HOUR` (ppm/hour/person). -/
def HUMAN_CO2_PRODUCTION_PER_HOUR : ℚ := 35.0

/-- A `Door` object (`src/better-sample.py`, class `Door`): `flow_rate` is
set to `0.2 if is_open else 0.0` by `__init__` and `toggle`. -/
structure Door where
  room1_id : ℕ
  room2_id : ℕ
  is_open : Bool
  flow_rate : ℚ
  deriving DecidableEq, Repr

/-- `Door.__init__` (position and width omitted): the stored flow rate is
`0.2` when open and `0.0` when closed. -/
def Door.make (room1_id room2_id : ℕ) (is_open : Bool) : Door :=
  { room1_id := room1_id, room2_id := room2_id, is_open := is_open,
    flow_rate := if is_open then 0.2 else 0.0 }

/-- `Door.toggle`. -/
def Door.toggle (d : Door) : Door :=
  let o := !d.is_open
  { d with is_open := o, flow_rate := if o then 0.2 else 0.0 }

/-- The simulation-relevant state of a `Room` object
(`src/better-sample.py`, class `Room`): polygon-derived `area`, gas
levels, population, and the flow rates of its breaches (in list order).
Geometry/visualization fields are omitted. -/
structure Room where
  id : ℕ
  area : ℚ
  o2_level : ℚ
  co2_level : ℚ
  population : ℕ
  breaches : List ℚ
  deriving DecidableEq, Repr

/-- The simulation-relevant state of a `Sensor` object
(`src/better-sample.py`, class `Sensor`). -/
structure Sensor where
  x : ℚ
  y : ℚ
  variance_o2 : ℚ
  variance_co2 : ℚ
  last_o2_reading : Option ℚ
  last_co2_reading : Option ℚ
  deriving DecidableEq, Repr

/-- `Sensor.read_o2`: `reading = np.random.normal(true_value, self.variance_o2)`
— the configured variance is itself passed as the normal's scale
(standard deviation) — then `last_o2_reading = max(0, reading)` is stored
and returned.  The draw is embedded as `true_value + variance_o2 * z`. -/
def read_o2 (s : Sensor) (true_value : ℚ) (z : ℚ) : ℚ × Sensor :=
  let reading := true_value + s.variance_o2 * z
  let last := pymax 0 reading
  (last, { s with last_o2_reading := some last })

/-- `Sensor.read_co2`: same shape as `read_o2`, with `variance_co2` as the
normal's scale. -/
def read_co2 (s : Sensor) (true_value : ℚ) (z : ℚ) : ℚ × Sensor :=
  let reading := true_value + s.variance_co2 * z
  let last := pymax 0 reading
  (last, { s with last_co2_reading := some last })

/-- Respiration loop body of `ColonySimulation.update_simulation`:
O2 consumption scaled by `size_factor = 100 / max(room.area, 10)` and
clamped at 0; CO2 production scaled the same way, not clamped. -/
def respiration_update (dt_hours : ℚ) (room : Room) : Room :=
  if 0 < room.population then
    let o2_consumed := HUMAN_O2_CONSUMPTION_PER_HOUR * room.population * dt_hours
    let size_factor := 100 / pymax room.area 10
    let co2_produced := HUMAN_CO2_PRODUCTION_PER_HOUR * room.population * dt_hours
    { room with o2_level := pymax 0 (room.o2_level - o2_consumed * size_factor),
                co2_level := room.co2_level + co2_produced * size_factor }
  else room

/-- Breach loop body of `ColonySimulation.update_simulation`: for each
breach in list order, both gases move toward the Mars environment by
`(mars_level - current) * breach.flow_rate * dt_hours`, with no clamp. -/
def breach_update (dt_hours : ℚ) (room : Room) : Room :=
  room.breaches.foldl
    (fun rm breach_flow_rate =>
      let o2_flow := (MARS_O2_PERCENTAGE - rm.o2_level) * breach_flow_rate * dt_hours
      let co2_flow := (MARS_ENV_CO2_PPM - rm.co2_level) * breach_flow_rate * dt_hours
      { rm with o2_level := rm.o2_level + o2_flow,
                co2_level := rm.co2_level + co2_flow })
    room

/-- Room lookup of the door loop: the room with the given id (the source
scans the room list once; ids are unique, so first match is last match). -/
def find_room (rooms : List Room) (room_id : ℕ) : Option Room :=
  match rooms with
  | [] => none
  | room :: rest => if room.id = room_id then some room else find_room rest room_id

/-- Door loop body of `ColonySimulation.update_simulation`.  Doors with
`flow_rate == 0` (closed doors) are skipped entirely, as is any door whose
two room ids do not resolve to two rooms (in particular doors "to the
outside", whose `room2_id` matches no room).  The rooms are found by one
scan with `if room.id == door.room1_id: ... elif room.id == door.room2_id:`
so when the two ids coincide `room2` is never bound and the door is
skipped; the `elif` is rendered by excluding `room1_id` from the `room2`
lookup.  The exchange itself is unclamped and, as in the source, both
flows are computed from the pre-exchange levels. -/
def door_exchange (dt_hours : ℚ) (rooms : List Room) (door : Door) : List Room :=
  if 0 < door.flow_rate then
    let room1? := find_room rooms door.room1_id
    let room2? :=
      if door.room2_id = door.room1_id then none
      else find_room rooms door.room2_id
    match room1?, room2? with
    | some room1, some room2 =>
      let o2_diff := room2.o2_level - room1.o2_level
      let co2_diff := room2.co2_level - room1.co2_level
      let o2_flow := o2_diff * door.flow_rate * dt_hours
      let co2_flow := co2_diff * door.flow_rate * dt_hours
      rooms.map (fun r =>
        if r.id = room1.id then
          { r with o2_level := r.o2_level + o2_flow,
                   co2_level := r.co2_level + co2_flow }
        else if r.id = room2.id then
          { r with o2_level := r.o2_level - o2_flow,
                   co2_level := r.co2_level - co2_flow }
        else r)
    | _, _ => rooms
  else rooms

/-- `ColonySimulation.update_simulation(dt_hours)`: respiration for every
room, then breach effects for every room, then the door exchanges in door
list order.  (The trailing sensor-reading loop does not touch room state
and is modelled separately by `read_o2` / `read_co2`.) -/
def update_simulation (dt_hours : ℚ) (rooms : List Room) (doors : List Door) :
    List Room :=
  doors.foldl (door_exchange dt_hours)
    ((rooms.map (respiration_update dt_hours)).map (breach_update dt_hours))

end BetterSample

/-! ## Concrete configurations used by the theorems -/

/-- An idpCreateHome room with the given id and O2 level, CO2 400 ppm, no
population, no breach, volume 1000 L. -/
def idpTestRoom (i : ℕ) (o2 : ℚ) : IdpCreateHome.Room :=
  { id := i, o2_level := o2, co2_level := 400, population := 0,
    breach_level := 0, volume_liters := 1000 }

/-- An open idpCreateHome door between rooms 1 and 2. -/
def idpOpenDoor12 : IdpCreateHome.Door :=
  { room1_id := 1, room2_id := some 2, is_open := true }

/-- An open idpCreateHome door between rooms 1 and 3. -/
def idpOpenDoor13 : IdpCreateHome.Door :=
  { room1_id := 1, room2_id := some 3, is_open := true }

/-- A closed idpCreateHome door between rooms 1 and 2. -/
def idpClosedDoor12 : IdpCreateHome.Door :=
  { room1_id := 1, room2_id := some 2, is_open := false }

/-- An external (ambient-side) open idpCreateHome door on room 1. -/
def idpAmbientDoor1 : IdpCreateHome.Door :=
  { room1_id := 1, room2_id := none, is_open := true }

/-- A better-sample room with the given id, area, O2 level and population;
CO2 400 ppm, no breaches. -/
def bsTestRoom (i : ℕ) (area o2 : ℚ) (pop : ℕ) : BetterSample.Room :=
  { id := i, area := area, o2_level := o2, co2_level := 400,
    population := pop, breaches := [] }

/-- A better-sample room at 21% O2 carrying one breach of flow rate 0.5
(the value used by the Add Breach UI callback). -/
def bsBreachedRoom : BetterSample.Room :=
  { id := 1, area := 100, o2_level := 21, co2_level := 400,
    population := 0, breaches := [0.5] }

/-- A better-sample sensor whose configured `variance_o2` is 4. -/
def bsSensor4 : BetterSample.Sensor :=
  { x := 0, y := 0, variance_o2 := 4, variance_co2 := 20,
    last_o2_reading := none, last_co2_reading := none }

/-- A sensor with the default idpCreateHome variances. -/
def estSensor : IdpCreateHome.Sensor :=
  { x := 0, y := 0, o2_variance := 0.5, co2_variance := 20,
    sensing_radius := 7.5, last_o2_reading := none, last_co2_reading := none }

/-- An estimator state as built by `DrawingApp.__init__` with scikit-learn
available: both regressors constructed (unfitted), reconstructed field
zero-filled. -/
def estInit : IdpCreateHome.EstimatorState :=
  { gp_model_o2 := some { fitted := none },
    gp_model_co2 := some { fitted := none },
    gp_reconstructed_field := fun _ => 0 }

/-- A constant ground-truth O2 field at 21 percent. -/
def truthO2Field : IdpCreateHome.GasField := fun _ => 21

/-- A constant ground-truth CO2 field at 400 ppm. -/
def truthCO2Field : IdpCreateHome.GasField := fun _ => 400

/-- The estimator state after a successful CO2 fit whose prediction is the
constant field 500. -/
def estAfterCO2 : IdpCreateHome.EstimatorState :=
  (IdpCreateHome.update_gp_model_and_predict estInit IdpCreateHome.Gas.CO2 true
    [estSensor] [((0, 0), 500)] (Except.ok (fun _ => 500))
    truthO2Field truthCO2Field).1

/-- The state `estAfterCO2` after a subsequent successful O2 fit whose
prediction is the constant field 20. -/
def estAfterO2 : IdpCreateHome.EstimatorState :=
  (IdpCreateHome.update_gp_model_and_predict estAfterCO2 IdpCreateHome.Gas.O2 true
    [estSensor] [((0, 0), 20)] (Except.ok (fun _ => 20))
    truthO2Field truthCO2Field).1

/-! ## Theorems -/

/-- C3: for two real rooms A (O2 21.0) and B (O2 15.0) connected by one
open door (flow rate 0.2/hr), one step with `dt_hours = 1.0`, zero
population and zero breach moves A down by exactly 1.2 points to 19.8 and
B up by exactly 1.2 points to 16.2, in both the idpCreateHome and the
better-sample variant; the exchange is mass-symmetric (the levels sum is
conserved).  When the door's second side is ambient, only the real room's
level changes: in idpCreateHome the connected room moves toward the Mars
baseline (21 → 16.826 for O2) while every other room is untouched, and in
better-sample an ambient-side door performs no exchange; the ambient
baseline itself is a read-only constant in both variants, so it is never
modified. -/
theorem C3_door_symmetry :
    ((IdpCreateHome.run_simulation_step_gas 1 [idpTestRoom 1 21, idpTestRoom 2 15]
        [idpOpenDoor12]).map IdpCreateHome.Room.o2_level = [19.8, 16.2]
     ∧ (19.8 : ℚ) = 21 - 1.2 ∧ (16.2 : ℚ) = 15 + 1.2
     ∧ (19.8 + 16.2 : ℚ) = 21 + 15)
    ∧ ((BetterSample.update_simulation 1 [bsTestRoom 1 100 21 0, bsTestRoom 2 100 15 0]
        [BetterSample.Door.make 1 2 true]).map BetterSample.Room.o2_level
        = [19.8, 16.2])
    ∧ (IdpCreateHome.run_simulation_step_gas 1 [idpTestRoom 1 21, idpTestRoom 3 17]
        [idpAmbientDoor1]
        = [{ idpTestRoom 1 21 with o2_level := 16.826, co2_level := 190320 },
           idpTestRoom 3 17])
    ∧ (BetterSample.update_simulation 1 [bsTestRoom 1 100 21 0]
        [BetterSample.Door.make 1 0 true] = [bsTestRoom 1 100 21 0]) := by
  refine ⟨⟨?_, by norm_num, by norm_num, by norm_num⟩, ?_, ?_, ?_⟩ <;>
    norm_num [IdpCreateHome.run_simulation_step, IdpCreateHome.run_simulation_step_gas, IdpCreateHome.apply_door_exchange, IdpCreateHome.room_respiration_breach, IdpCreateHome.get_room_by_id, IdpCreateHome.SIM_DT_HOURS, IdpCreateHome.SIM_STEP_REAL_TIME_SECONDS, IdpCreateHome.SIM_TIME_SCALE_FACTOR, IdpCreateHome.MARS_O2_PERCENTAGE, IdpCreateHome.MARS_CO2_PPM, IdpCreateHome.MARS_CO2_PERCENTAGE, IdpCreateHome.DOOR_FLOW_RATE_OPEN_PER_HOUR, IdpCreateHome.DOOR_FLOW_RATE_CLOSED_PER_HOUR, IdpCreateHome.HUMAN_O2_CONSUMPTION_PER_HOUR_PERSON, IdpCreateHome.HUMAN_CO2_PRODUCTION_PPM_PER_HOUR_PERSON, IdpCreateHome.HUMAN_CO2_PRODUCTION_PER_HOUR_PERSON, IdpCreateHome.DEFAULT_BREACH_FLOW_RATE_PER_HOUR, idpTestRoom, idpOpenDoor12, idpOpenDoor13, idpClosedDoor12, idpAmbientDoor1, pymax, pymin, List.find?, BetterSample.update_simulation, BetterSample.door_exchange, BetterSample.breach_update, BetterSample.respiration_update, BetterSample.Door.make, BetterSample.Door.toggle, BetterSample.read_o2, BetterSample.find_room, BetterSample.MARS_O2_PERCENTAGE, BetterSample.MARS_ENV_CO2_PPM, BetterSample.MARS_CO2_PERCENTAGE, BetterSample.HUMAN_O2_CONSUMPTION_PER_HOUR, BetterSample.HUMAN_CO2_PRODUCTION_PER_HOUR, bsTestRoom, bsBreachedRoom, bsSensor4, pymax, pymin]

/-- C10: within one simulation step the door exchanges are a sequential
left fold over the door list (each door reading the levels already updated
by earlier doors), and door-update operations do not commute: with rooms
1 (O2 21), 2 (O2 0), 3 (O2 0) and the two open doors 1-2 and 1-3,
permuting the door list changes the post-step gas levels. -/
theorem C10_door_order_matters :
    (∀ (dt : ℚ) (rooms : List IdpCreateHome.Room) (doors : List IdpCreateHome.Door),
        IdpCreateHome.run_simulation_step_gas dt rooms doors =
          doors.foldl (IdpCreateHome.apply_door_exchange dt)
            (rooms.map (IdpCreateHome.room_respiration_breach dt)))
    ∧ IdpCreateHome.run_simulation_step
        [idpTestRoom 1 21, idpTestRoom 2 0, idpTestRoom 3 0]
        [idpOpenDoor12, idpOpenDoor13]
      ≠ IdpCreateHome.run_simulation_step
        [idpTestRoom 1 21, idpTestRoom 2 0, idpTestRoom 3 0]
        [idpOpenDoor13, idpOpenDoor12] :=
  ⟨fun _ _ _ => rfl, by norm_num [IdpCreateHome.run_simulation_step, IdpCreateHome.run_simulation_step_gas, IdpCreateHome.apply_door_exchange, IdpCreateHome.room_respiration_breach, IdpCreateHome.get_room_by_id, IdpCreateHome.SIM_DT_HOURS, IdpCreateHome.SIM_STEP_REAL_TIME_SECONDS, IdpCreateHome.SIM_TIME_SCALE_FACTOR, IdpCreateHome.MARS_O2_PERCENTAGE, IdpCreateHome.MARS_CO2_PPM, IdpCreateHome.MARS_CO2_PERCENTAGE, IdpCreateHome.DOOR_FLOW_RATE_OPEN_PER_HOUR, IdpCreateHome.DOOR_FLOW_RATE_CLOSED_PER_HOUR, IdpCreateHome.HUMAN_O2_CONSUMPTION_PER_HOUR_PERSON, IdpCreateHome.HUMAN_CO2_PRODUCTION_PPM_PER_HOUR_PERSON, IdpCreateHome.HUMAN_CO2_PRODUCTION_PER_HOUR_PERSON, IdpCreateHome.DEFAULT_BREACH_FLOW_RATE_PER_HOUR, idpTestRoom, idpOpenDoor12, idpOpenDoor13, idpClosedDoor12, idpAmbientDoor1, pymax, pymin]⟩

/-- C1 (counterexample): the nonnegativity invariant does not hold for
every variant, population/breach configuration and `dt_hours ≥ 0`.  In
better-sample the breach exchange is unclamped: a single room at 21% O2
with one breach of flow rate 0.5 and one `update_simulation` call with
`dt_hours = 3` drives `o2_level` to −10.305 < 0. -/
theorem C1_counterexample_bs_negative_o2 :
    (BetterSample.update_simulation 3 [bsBreachedRoom] []).map
        BetterSample.Room.o2_level = [-10.305]
    ∧ ((-10.305 : ℚ) < 0) := by
  norm_num [BetterSample.update_simulation, BetterSample.door_exchange, BetterSample.breach_update, BetterSample.respiration_update, BetterSample.Door.make, BetterSample.Door.toggle, BetterSample.read_o2, BetterSample.find_room, BetterSample.MARS_O2_PERCENTAGE, BetterSample.MARS_ENV_CO2_PPM, BetterSample.MARS_CO2_PERCENTAGE, BetterSample.HUMAN_O2_CONSUMPTION_PER_HOUR, BetterSample.HUMAN_CO2_PRODUCTION_PER_HOUR, bsTestRoom, bsBreachedRoom, bsSensor4, pymax, pymin]

/-- C4 (counterexample): no variant satisfies the conjunction of an
area-derived size-normalization factor and the 0.035-rate reference
scenario.  In idpCreateHome respiration is area-independent: two rooms
whose volumes differ by a factor 100 lose exactly the same 0.07 points
(21 → 20.93), so smaller rooms do not deplete faster there; in
better-sample (the only variant with the area factor) the per-person rate
is 0.02, so the claimed reference scenario (factor 1, population 2,
dt 1.0) gives 21 → 20.96, not 20.93. -/
theorem C4_counterexample_respiration_mismatch :
    ((IdpCreateHome.room_respiration_breach 1
        { id := 1, o2_level := 21, co2_level := 400, population := 2,
          breach_level := 0, volume_liters := 1000 }).o2_level = 20.93
     ∧ (IdpCreateHome.room_respiration_breach 1
        { id := 2, o2_level := 21, co2_level := 400, population := 2,
          breach_level := 0, volume_liters := 100000 }).o2_level = 20.93)
    ∧ ((BetterSample.update_simulation 1 [bsTestRoom 1 100 21 2] []).map
         BetterSample.Room.o2_level = [20.96]
       ∧ ((20.96 : ℚ) ≠ 20.93)) := by
  refine ⟨⟨?_, ?_⟩, ?_, by norm_num⟩ <;> norm_num [IdpCreateHome.run_simulation_step, IdpCreateHome.run_simulation_step_gas, IdpCreateHome.apply_door_exchange, IdpCreateHome.room_respiration_breach, IdpCreateHome.get_room_by_id, IdpCreateHome.SIM_DT_HOURS, IdpCreateHome.SIM_STEP_REAL_TIME_SECONDS, IdpCreateHome.SIM_TIME_SCALE_FACTOR, IdpCreateHome.MARS_O2_PERCENTAGE, IdpCreateHome.MARS_CO2_PPM, IdpCreateHome.MARS_CO2_PERCENTAGE, IdpCreateHome.DOOR_FLOW_RATE_OPEN_PER_HOUR, IdpCreateHome.DOOR_FLOW_RATE_CLOSED_PER_HOUR, IdpCreateHome.HUMAN_O2_CONSUMPTION_PER_HOUR_PERSON, IdpCreateHome.HUMAN_CO2_PRODUCTION_PPM_PER_HOUR_PERSON, IdpCreateHome.HUMAN_CO2_PRODUCTION_PER_HOUR_PERSON, IdpCreateHome.DEFAULT_BREACH_FLOW_RATE_PER_HOUR, idpTestRoom, idpOpenDoor12, idpOpenDoor13, idpClosedDoor12, idpAmbientDoor1, pymax, pymin, List.find?, BetterSample.update_simulation, BetterSample.door_exchange, BetterSample.breach_update, BetterSample.respiration_update, BetterSample.Door.make, BetterSample.Door.toggle, BetterSample.read_o2, BetterSample.find_room, BetterSample.MARS_O2_PERCENTAGE, BetterSample.MARS_ENV_CO2_PPM, BetterSample.MARS_CO2_PERCENTAGE, BetterSample.HUMAN_O2_CONSUMPTION_PER_HOUR, BetterSample.HUMAN_CO2_PRODUCTION_PER_HOUR, bsTestRoom, bsBreachedRoom, bsSensor4, pymax, pymin]

/-- C5 (counterexample): in better-sample the configured variance itself —
not its square root — is passed as the scale (standard deviation) of the
normal draw.  For a sensor with `variance_o2 = 4`, whose unique
nonnegative square root is 2, a read at true value 21 with standard draw
`z = 1` returns 25 = max(0, 21 + 4·1), whereas a draw with standard
deviation √4 = 2 would give max(0, 21 + 2·1) = 23. -/
theorem C5_counterexample_bs_variance_as_std :
    ((0 : ℚ) ≤ 2 ∧ (2 : ℚ) ^ 2 = bsSensor4.variance_o2)
    ∧ (BetterSample.read_o2 bsSensor4 21 1).1 = 25
    ∧ ((25 : ℚ) ≠ pymax 0 (21 + 2 * 1)) := by
  norm_num [BetterSample.update_simulation, BetterSample.door_exchange, BetterSample.breach_update, BetterSample.respiration_update, BetterSample.Door.make, BetterSample.Door.toggle, BetterSample.read_o2, BetterSample.find_room, BetterSample.MARS_O2_PERCENTAGE, BetterSample.MARS_ENV_CO2_PPM, BetterSample.MARS_CO2_PERCENTAGE, BetterSample.HUMAN_O2_CONSUMPTION_PER_HOUR, BetterSample.HUMAN_CO2_PRODUCTION_PER_HOUR, bsTestRoom, bsBreachedRoom, bsSensor4, pymax, pymin]

/-- C6 (counterexample): in better-sample a closed door's stored flow rate
is exactly 0 (both from the constructor and after `toggle`), and the door
loop skips zero-flow doors, so a closed door between rooms at 21% and 15%
O2 changes nothing in a step — the applied flow rate is not strictly
positive and the door is fully sealed. -/
theorem C6_counterexample_bs_sealed_closed_door :
    (BetterSample.Door.make 1 2 false).flow_rate = 0
    ∧ ((BetterSample.Door.make 1 2 true).toggle).flow_rate = 0
    ∧ (BetterSample.update_simulation 1 [bsTestRoom 1 100 21 0, bsTestRoom 2 100 15 0]
        [BetterSample.Door.make 1 2 false]).map BetterSample.Room.o2_level
        = [21, 15] := by
  norm_num [BetterSample.update_simulation, BetterSample.door_exchange, BetterSample.breach_update, BetterSample.respiration_update, BetterSample.Door.make, BetterSample.Door.toggle, BetterSample.read_o2, BetterSample.find_room, BetterSample.MARS_O2_PERCENTAGE, BetterSample.MARS_ENV_CO2_PPM, BetterSample.MARS_CO2_PERCENTAGE, BetterSample.HUMAN_O2_CONSUMPTION_PER_HOUR, BetterSample.HUMAN_CO2_PRODUCTION_PER_HOUR, bsTestRoom, bsBreachedRoom, bsSensor4, pymax, pymin]

/-- C9 (counterexample): there is only one reconstructed-field instance,
`gp_reconstructed_field`, shared by both gases: after a successful CO2
fit stores the constant-500 reconstruction, a subsequent successful O2 fit
overwrites it (the cell (0,0) reads 20 instead of 500), so refitting for
one gas does overwrite the other gas's reconstructed field. -/
theorem C9_counterexample_shared_reconstructed_field :
    estAfterCO2.gp_reconstructed_field (0, 0) = 500
    ∧ estAfterO2.gp_reconstructed_field (0, 0) = 20
    ∧ ((20 : ℚ) ≠ 500) := by
  norm_num [IdpCreateHome.update_gp_model_and_predict, IdpCreateHome.np_clip, IdpCreateHome.max_clip, IdpCreateHome.NORMAL_O2_PERCENTAGE, IdpCreateHome.MARS_CO2_PPM, IdpCreateHome.MARS_CO2_PERCENTAGE, estInit, estSensor, estAfterCO2, estAfterO2, truthO2Field, truthCO2Field, pymax, pymin]

theorem pymax_eq_max (a b : ℚ) : pymax a b = max a b := (max_def a b).symm

theorem pymin_eq_min (a b : ℚ) : pymin a b = min a b := (min_def a b).symm

theorem np_clip_bounds (hi x : ℚ) (hhi : 0 ≤ hi) :
    0 ≤ IdpCreateHome.np_clip 0 hi x ∧ IdpCreateHome.np_clip 0 hi x ≤ hi := by
  unfold IdpCreateHome.np_clip
  rw [pymin_eq_min, pymax_eq_max]
  exact ⟨le_min hhi (le_max_left 0 x), min_le_left hi _⟩

theorem max_clip_nonneg (view : IdpCreateHome.Gas) : 0 ≤ IdpCreateHome.max_clip view := by
  cases view <;>
    norm_num [IdpCreateHome.max_clip, IdpCreateHome.NORMAL_O2_PERCENTAGE,
      IdpCreateHome.MARS_CO2_PPM, IdpCreateHome.MARS_CO2_PERCENTAGE]

/-- C2: whenever the regression dependency is unavailable, or there are
zero sensors, or GP fitting/prediction raises, the estimator sets the
reconstructed field pointwise equal to the current ground-truth field and
reports one of the non-fatal fallback status strings; the embedded update
is a total function, so no exception reaches the caller.  In particular
with zero sensors the reconstructed field is pointwise equal to the
ground-truth field of the viewed gas. -/
theorem C2_gp_fallback_truth (st : IdpCreateHome.EstimatorState)
    (view : IdpCreateHome.Gas) (sklearn_available : Bool)
    (sensors : List IdpCreateHome.Sensor)
    (sensor_data : List ((ℚ × ℚ) × ℚ))
    (fit_predict : Except String IdpCreateHome.GasField)
    (o2_truth co2_truth : IdpCreateHome.GasField)
    (h : sklearn_available = false ∨ sensors = [] ∨
         ∃ e, fit_predict = Except.error e) :
    (∀ cell,
      (IdpCreateHome.update_gp_model_and_predict st view sklearn_available sensors
          sensor_data fit_predict o2_truth co2_truth).1.gp_reconstructed_field cell
        = (match view with
           | IdpCreateHome.Gas.O2 => o2_truth
           | IdpCreateHome.Gas.CO2 => co2_truth) cell)
    ∧ (IdpCreateHome.update_gp_model_and_predict st view sklearn_available sensors
          sensor_data fit_predict o2_truth co2_truth).2
        ∈ IdpCreateHome.fallback_statuses view := by
  rcases h with h | h | ⟨e, h⟩
  · subst h
    simp [IdpCreateHome.update_gp_model_and_predict, IdpCreateHome.fallback_statuses]
  · subst h
    by_cases h1 : (!sklearn_available || (match view with
        | IdpCreateHome.Gas.O2 => st.gp_model_o2
        | IdpCreateHome.Gas.CO2 => st.gp_model_co2).isNone) = true
    · simp [IdpCreateHome.update_gp_model_and_predict, h1,
        IdpCreateHome.fallback_statuses]
    · simp [IdpCreateHome.update_gp_model_and_predict, h1,
        IdpCreateHome.fallback_statuses]
  · subst h
    by_cases h1 : (!sklearn_available || (match view with
        | IdpCreateHome.Gas.O2 => st.gp_model_o2
        | IdpCreateHome.Gas.CO2 => st.gp_model_co2).isNone) = true
    · simp [IdpCreateHome.update_gp_model_and_predict, h1,
        IdpCreateHome.fallback_statuses]
    · by_cases h2 : sensors.isEmpty = true
      · simp [IdpCreateHome.update_gp_model_and_predict, h1, h2,
          IdpCreateHome.fallback_statuses]
      · by_cases h3 : 0 < sensor_data.length
        · simp [IdpCreateHome.update_gp_model_and_predict, h1, h2, h3,
            IdpCreateHome.fallback_statuses]
        · simp [IdpCreateHome.update_gp_model_and_predict, h1, h2, h3,
            IdpCreateHome.fallback_statuses]

/-- C7: whenever GP fitting and prediction succeed (the regressor exists,
there are sensors, the collected data is nonempty, and `fit`/`predict`
return a field), the reconstructed field exposed to the display consumer
is the prediction clipped pointwise by `np.clip` to the per-gas plausible
range: every value lies in `[0, 1.5 × 21.0]` for O2 and `[0, 1.1 × 950000]`
for CO2. -/
theorem C7_prediction_clipped (st : IdpCreateHome.EstimatorState)
    (view : IdpCreateHome.Gas) (sensors : List IdpCreateHome.Sensor)
    (sensor_data : List ((ℚ × ℚ) × ℚ)) (predicted : IdpCreateHome.GasField)
    (o2_truth co2_truth : IdpCreateHome.GasField)
    (hm : (match view with
           | IdpCreateHome.Gas.O2 => st.gp_model_o2
           | IdpCreateHome.Gas.CO2 => st.gp_model_co2).isNone = false)
    (hs : sensors ≠ []) (hd : 0 < sensor_data.length) :
    (∀ cell,
      (IdpCreateHome.update_gp_model_and_predict st view true sensors sensor_data
          (Except.ok predicted) o2_truth co2_truth).1.gp_reconstructed_field cell
        = IdpCreateHome.np_clip 0 (IdpCreateHome.max_clip view) (predicted cell))
    ∧ (∀ cell,
        0 ≤ (IdpCreateHome.update_gp_model_and_predict st view true sensors sensor_data
              (Except.ok predicted) o2_truth co2_truth).1.gp_reconstructed_field cell
        ∧ (IdpCreateHome.update_gp_model_and_predict st view true sensors sensor_data
              (Except.ok predicted) o2_truth co2_truth).1.gp_reconstructed_field cell
            ≤ IdpCreateHome.max_clip view)
    ∧ IdpCreateHome.max_clip IdpCreateHome.Gas.O2 = 1.5 * 21.0
    ∧ IdpCreateHome.max_clip IdpCreateHome.Gas.CO2 = 1.1 * 950000 := by
  have hfield : ∀ cell,
      (IdpCreateHome.update_gp_model_and_predict st view true sensors sensor_data
          (Except.ok predicted) o2_truth co2_truth).1.gp_reconstructed_field cell
        = IdpCreateHome.np_clip 0 (IdpCreateHome.max_clip view) (predicted cell) := by
    intro cell
    simp [IdpCreateHome.update_gp_model_and_predict, hm, hs, hd]
  refine ⟨hfield, fun cell => ?_, ?_, ?_⟩
  · rw [hfield cell]
    exact np_clip_bounds (IdpCreateHome.max_clip view) (predicted cell)
      (max_clip_nonneg view)
  · norm_num [IdpCreateHome.max_clip, IdpCreateHome.NORMAL_O2_PERCENTAGE]
  · norm_num [IdpCreateHome.max_clip, IdpCreateHome.MARS_CO2_PPM,
      IdpCreateHome.MARS_CO2_PERCENTAGE]

/-- C9 (amended): the estimator keeps one regression model per gas with no
shared fitted state — an update (including a successful refit) while
viewing O2 leaves `gp_model_co2` untouched, and vice versa.  However only
a single reconstructed-field instance exists, holding the field of the
currently viewed gas, so refitting one gas does overwrite the other gas's
reconstructed field (see the counterexample theorem). -/
theorem C9_amended_independent_models (st : IdpCreateHome.EstimatorState)
    (sklearn_available : Bool) (sensors : List IdpCreateHome.Sensor)
    (sensor_data : List ((ℚ × ℚ) × ℚ))
    (fit_predict : Except String IdpCreateHome.GasField)
    (o2_truth co2_truth : IdpCreateHome.GasField) :
    ((IdpCreateHome.update_gp_model_and_predict st IdpCreateHome.Gas.O2
        sklearn_available sensors sensor_data fit_predict o2_truth
        co2_truth).1.gp_model_co2 = st.gp_model_co2)
    ∧ ((IdpCreateHome.update_gp_model_and_predict st IdpCreateHome.Gas.CO2
        sklearn_available sensors sensor_data fit_predict o2_truth
        co2_truth).1.gp_model_o2 = st.gp_model_o2) := by
  constructor <;>
  · unfold IdpCreateHome.update_gp_model_and_predict
    dsimp only
    split_ifs <;> first
      | rfl
      | (cases fit_predict <;> rfl)

theorem zero_le_pymax (x : ℚ) : 0 ≤ pymax 0 x := by
  rw [pymax_eq_max]
  exact le_max_left 0 x

theorem room_respiration_breach_nonneg (dt : ℚ) (r : IdpCreateHome.Room)
    (h1 : 0 ≤ r.o2_level) (h2 : 0 ≤ r.co2_level) :
    0 ≤ (IdpCreateHome.room_respiration_breach dt r).o2_level
    ∧ 0 ≤ (IdpCreateHome.room_respiration_breach dt r).co2_level := by
  unfold IdpCreateHome.room_respiration_breach
  dsimp only
  split_ifs <;>
    refine ⟨?_, ?_⟩ <;>
    first
      | exact h1
      | exact h2
      | exact zero_le_pymax _

theorem apply_door_exchange_nonneg (dt : ℚ) (rooms : List IdpCreateHome.Room)
    (door : IdpCreateHome.Door)
    (h : ∀ r ∈ rooms, 0 ≤ r.o2_level ∧ 0 ≤ r.co2_level) :
    ∀ r ∈ IdpCreateHome.apply_door_exchange dt rooms door,
      0 ≤ r.o2_level ∧ 0 ≤ r.co2_level := by
  unfold IdpCreateHome.apply_door_exchange
  split
  · exact h
  · intro r' hr'
    rcases List.mem_map.mp hr' with ⟨r, hr, rfl⟩
    have hP := h r hr
    dsimp only
    split <;> split_ifs <;>
      refine ⟨?_, ?_⟩ <;>
      first
        | exact hP.1
        | exact hP.2
        | exact zero_le_pymax _

theorem foldl_door_exchange_nonneg (dt : ℚ) (doors : List IdpCreateHome.Door)
    (rooms : List IdpCreateHome.Room)
    (h : ∀ r ∈ rooms, 0 ≤ r.o2_level ∧ 0 ≤ r.co2_level) :
    ∀ r ∈ doors.foldl (IdpCreateHome.apply_door_exchange dt) rooms,
      0 ≤ r.o2_level ∧ 0 ≤ r.co2_level := by
  induction doors generalizing rooms with
  | nil => exact h
  | cons d ds ih =>
    exact ih (IdpCreateHome.apply_door_exchange dt rooms d)
      (apply_door_exchange_nonneg dt rooms d h)

theorem run_simulation_step_gas_nonneg (dt : ℚ) (rooms : List IdpCreateHome.Room)
    (doors : List IdpCreateHome.Door)
    (h : ∀ r ∈ rooms, 0 ≤ r.o2_level ∧ 0 ≤ r.co2_level) :
    ∀ r ∈ IdpCreateHome.run_simulation_step_gas dt rooms doors,
      0 ≤ r.o2_level ∧ 0 ≤ r.co2_level := by
  refine foldl_door_exchange_nonneg dt doors _ ?_
  intro r' hr'
  rcases List.mem_map.mp hr' with ⟨r, hr, rfl⟩
  exact room_respiration_breach_nonneg dt r (h r hr).1 (h r hr).2

/-- C1 (amended): in the idpCreateHome variant every gas-level assignment
is clamped at 0, so for every room, every finite sequence of simulation
step calls (any populations, breach levels, door configurations and any
`dt_hours`, not even restricted to be nonnegative) keeps `o2_level ≥ 0`
and `co2_level ≥ 0` whenever the initial levels are nonnegative.  In the
better-sample variant the breach and door exchanges are unclamped and the
invariant fails for large `dt_hours` (see the counterexample theorem). -/
theorem C1_amended_idp_levels_nonneg (steps : List (ℚ × List IdpCreateHome.Door))
    (rooms : List IdpCreateHome.Room)
    (h : ∀ r ∈ rooms, 0 ≤ r.o2_level ∧ 0 ≤ r.co2_level) :
    ∀ r ∈ IdpCreateHome.run_steps steps rooms,
      0 ≤ r.o2_level ∧ 0 ≤ r.co2_level := by
  induction steps generalizing rooms with
  | nil => exact h
  | cons p ps ih =>
    exact ih (IdpCreateHome.run_simulation_step_gas p.1 rooms p.2)
      (run_simulation_step_gas_nonneg p.1 rooms p.2 h)

theorem first_room_containing_eq_none (rooms : List IdpCreateHome.GeoRoom)
    (px py : ℚ)
    (h : ∀ g ∈ rooms, ¬ IdpCreateHome.contains_point g.shape px py) :
    IdpCreateHome.first_room_containing rooms px py = none := by
  induction rooms with
  | nil => rfl
  | cons g rest ih =>
    unfold IdpCreateHome.first_room_containing
    rw [if_neg (h g (List.mem_cons_self g rest))]
    exact ih fun g' hg' => h g' (List.mem_cons_of_mem g hg')

theorem overlay_foldl_outside (v : ℚ) (rooms : List IdpCreateHome.GeoRoom)
    (r_idx c_idx : ℕ) (f0 : ℕ → ℕ → ℚ)
    (h : ∀ g ∈ rooms, ¬ IdpCreateHome.contains_point g.shape
        (IdpCreateHome.sim_to_canvas_coords_center r_idx c_idx).1
        (IdpCreateHome.sim_to_canvas_coords_center r_idx c_idx).2) :
    rooms.foldl
      (fun field room => fun ri ci =>
        let c := IdpCreateHome.sim_to_canvas_coords_center ri ci
        if IdpCreateHome.contains_point room.shape c.1 c.2 then v
        else field ri ci)
      f0 r_idx c_idx = f0 r_idx c_idx := by
  induction rooms generalizing f0 with
  | nil => rfl
  | cons g rest ih =>
    rw [List.foldl_cons]
    rw [ih _ fun g' hg' => h g' (List.mem_cons_of_mem g hg')]
    exact if_neg (h g (List.mem_cons_self g rest))

/-- C8: after field initialization (`initialize_gas_fields`) and after a
simulation step's ground-truth rebuild, every grid cell whose center lies
outside all rooms holds the ambient baseline for its gas —
`MARS_O2_PERCENTAGE` for O2 and `MARS_CO2_PPM` for CO2 — whatever the
state of the map mask. -/
theorem C8_ambient_outside_rooms (map_mask : ℕ → ℕ → Bool)
    (rooms : List IdpCreateHome.GeoRoom) (r_idx c_idx : ℕ)
    (h : ∀ g ∈ rooms, ¬ IdpCreateHome.contains_point g.shape
        (IdpCreateHome.sim_to_canvas_coords_center r_idx c_idx).1
        (IdpCreateHome.sim_to_canvas_coords_center r_idx c_idx).2) :
    IdpCreateHome.rebuild_ground_truth_o2 map_mask rooms r_idx c_idx
      = IdpCreateHome.MARS_O2_PERCENTAGE
    ∧ IdpCreateHome.rebuild_ground_truth_co2 map_mask rooms r_idx c_idx
      = IdpCreateHome.MARS_CO2_PPM
    ∧ IdpCreateHome.init_gas_fields_o2 rooms r_idx c_idx
      = IdpCreateHome.MARS_O2_PERCENTAGE
    ∧ IdpCreateHome.init_gas_fields_co2 rooms r_idx c_idx
      = IdpCreateHome.MARS_CO2_PPM := by
  refine ⟨?_, ?_, ?_, ?_⟩
  · unfold IdpCreateHome.rebuild_ground_truth_o2
    split_ifs
    · dsimp only
      rw [first_room_containing_eq_none rooms _ _ h]
    · rfl
  · unfold IdpCreateHome.rebuild_ground_truth_co2
    split_ifs
    · dsimp only
      rw [first_room_containing_eq_none rooms _ _ h]
    · rfl
  · exact overlay_foldl_outside IdpCreateHome.NORMAL_O2_PERCENTAGE rooms r_idx c_idx _ h
  · exact overlay_foldl_outside IdpCreateHome.NORMAL_CO2_PPM rooms r_idx c_idx _ h

/-- C4 (amended): respiration differs between the variants.  In
idpCreateHome a populated room loses exactly
`0.035 × population × dt` O2 percentage points and gains
`420 × population × dt` ppm of CO2 (clamped at 0), with no dependence on
room size; the reference scenario (population 2, `dt = 1.0`) therefore
gives 21.0 → 20.93 there.  In better-sample the loss is
`0.02 × population × dt` scaled by the size-normalization factor
`100 / max(area, 10)` (and CO2 gains `35 × population × dt` ppm times the
same factor, unclamped); the factor is antitone in the area, so smaller
rooms deplete at least as fast, but with rate 0.02 the factor-1 scenario
gives 20.96, not 20.93. -/
theorem C4_amended_respiration (dt : ℚ) (r : IdpCreateHome.Room)
    (rb : BetterSample.Room)
    (hv : 0 < r.volume_liters) (hb : r.breach_level = 0)
    (hp : 0 < r.population) (hpb : 0 < rb.population) :
    (IdpCreateHome.room_respiration_breach dt r).o2_level
      = pymax 0 (r.o2_level -
          IdpCreateHome.HUMAN_O2_CONSUMPTION_PER_HOUR_PERSON * r.population * dt)
    ∧ (IdpCreateHome.room_respiration_breach dt r).co2_level
      = pymax 0 (r.co2_level +
          IdpCreateHome.HUMAN_CO2_PRODUCTION_PPM_PER_HOUR_PERSON * r.population * dt)
    ∧ (BetterSample.respiration_update dt rb).o2_level
      = pymax 0 (rb.o2_level -
          BetterSample.HUMAN_O2_CONSUMPTION_PER_HOUR * rb.population * dt
            * (100 / pymax rb.area 10))
    ∧ (BetterSample.respiration_update dt rb).co2_level
      = rb.co2_level +
          BetterSample.HUMAN_CO2_PRODUCTION_PER_HOUR * rb.population * dt
            * (100 / pymax rb.area 10)
    ∧ (∀ a1 a2 : ℚ, a1 ≤ a2 → 100 / pymax a2 10 ≤ 100 / pymax a1 10) := by
  refine ⟨?_, ?_, ?_, ?_, ?_⟩
  · simp [IdpCreateHome.room_respiration_breach, not_le.mpr hv, hp, hb]
  · simp [IdpCreateHome.room_respiration_breach, not_le.mpr hv, hp, hb]
  · simp [BetterSample.respiration_update, hpb]
  · simp [BetterSample.respiration_update, hpb]
  · intro a1 a2 hle
    rw [pymax_eq_max, pymax_eq_max]
    have h10 : (0 : ℚ) < max a1 10 := lt_of_lt_of_le (by norm_num) (le_max_right a1 10)
    exact div_le_div_of_nonneg_left (by norm_num) h10 (max_le_max hle le_rfl)

/-- C5 (amended): every sensor read returns `max(0, true + scale × z)` for
a standard-normal draw `z`, stores the readings in the sensor's
last-reading fields, touches no other sensor field and no room state, and
every reading is `≥ 0`.  The scale differs between the variants: in
idpCreateHome it is `math.sqrt(variance)` (embedded as the `sd` parameters
constrained by `sd ≥ 0` and `sd² = variance`), while in better-sample the
configured variance is itself passed as the normal's scale. -/
theorem C5_amended_sensor_read (s : IdpCreateHome.Sensor)
    (sb : BetterSample.Sensor)
    (true_o2 true_co2 z_o2 z_co2 sd_o2 sd_co2 tv z : ℚ)
    (h1 : 0 ≤ sd_o2) (h2 : sd_o2 ^ 2 = s.o2_variance)
    (h3 : 0 ≤ sd_co2) (h4 : sd_co2 ^ 2 = s.co2_variance) :
    ((IdpCreateHome.read_gas_levels s true_o2 true_co2 sd_o2 sd_co2 z_o2 z_co2).1.1
        = pymax 0 (true_o2 + sd_o2 * z_o2)
     ∧ (IdpCreateHome.read_gas_levels s true_o2 true_co2 sd_o2 sd_co2 z_o2 z_co2).1.2
        = pymax 0 (true_co2 + sd_co2 * z_co2)
     ∧ 0 ≤ (IdpCreateHome.read_gas_levels s true_o2 true_co2 sd_o2 sd_co2 z_o2 z_co2).1.1
     ∧ 0 ≤ (IdpCreateHome.read_gas_levels s true_o2 true_co2 sd_o2 sd_co2 z_o2 z_co2).1.2
     ∧ (IdpCreateHome.read_gas_levels s true_o2 true_co2 sd_o2 sd_co2 z_o2 z_co2).2
        = { s with
            last_o2_reading := some
              ((IdpCreateHome.read_gas_levels s true_o2 true_co2 sd_o2 sd_co2 z_o2 z_co2).1.1),
            last_co2_reading := some
              ((IdpCreateHome.read_gas_levels s true_o2 true_co2 sd_o2 sd_co2 z_o2 z_co2).1.2) })
    ∧ ((BetterSample.read_o2 sb tv z).1 = pymax 0 (tv + sb.variance_o2 * z)
       ∧ 0 ≤ (BetterSample.read_o2 sb tv z).1
       ∧ (BetterSample.read_o2 sb tv z).2
          = { sb with last_o2_reading := some ((BetterSample.read_o2 sb tv z).1) }
       ∧ (BetterSample.read_co2 sb tv z).1 = pymax 0 (tv + sb.variance_co2 * z)
       ∧ 0 ≤ (BetterSample.read_co2 sb tv z).1
       ∧ (BetterSample.read_co2 sb tv z).2
          = { sb with last_co2_reading := some ((BetterSample.read_co2 sb tv z).1) }) :=
  ⟨⟨rfl, rfl, zero_le_pymax _, zero_le_pymax _, rfl⟩,
   ⟨rfl, zero_le_pymax _, rfl, rfl, zero_le_pymax _, rfl⟩⟩

theorem room_respiration_breach_inactive (dt : ℚ) (r : IdpCreateHome.Room)
    (hv : 0 < r.volume_liters) (hp : r.population = 0) (hb : r.breach_level = 0) :
    IdpCreateHome.room_respiration_breach dt r = r := by
  simp [IdpCreateHome.room_respiration_breach, not_le.mpr hv, hp, hb]

/-- C6 (amended): in the idpCreateHome variant the closed-door flow rate
`DOOR_FLOW_RATE_CLOSED_PER_HOUR = 0.005` is strictly positive, so a
closed door is never fully sealed there: for two rooms at O2 levels
`a < b` (with `0 ≤ a`, no population, no breach) one
`run_simulation_step` at the program's tick `SIM_DT_HOURS` strictly
raises the lower level and strictly lowers the higher one without letting
them cross.  In the better-sample variant a closed door's flow rate is
exactly 0 and the step is a no-op (see the counterexample theorem). -/
theorem C6_amended_idp_closed_door_leak (a b : ℚ) (h0 : 0 ≤ a) (hab : a < b) :
    0 < IdpCreateHome.DOOR_FLOW_RATE_CLOSED_PER_HOUR
    ∧ a < (((IdpCreateHome.run_simulation_step [idpTestRoom 1 a, idpTestRoom 2 b]
          [idpClosedDoor12]).map IdpCreateHome.Room.o2_level).getD 0 0)
    ∧ (((IdpCreateHome.run_simulation_step [idpTestRoom 1 a, idpTestRoom 2 b]
          [idpClosedDoor12]).map IdpCreateHome.Room.o2_level).getD 1 0) < b
    ∧ (((IdpCreateHome.run_simulation_step [idpTestRoom 1 a, idpTestRoom 2 b]
          [idpClosedDoor12]).map IdpCreateHome.Room.o2_level).getD 0 0)
      < (((IdpCreateHome.run_simulation_step [idpTestRoom 1 a, idpTestRoom 2 b]
          [idpClosedDoor12]).map IdpCreateHome.Room.o2_level).getD 1 0) := by
  have hrun : (IdpCreateHome.run_simulation_step [idpTestRoom 1 a, idpTestRoom 2 b]
      [idpClosedDoor12]).map IdpCreateHome.Room.o2_level
      = [pymax 0 (a + (b - a) * (1 / 72000)), pymax 0 (b - (b - a) * (1 / 72000))] := by
    norm_num [IdpCreateHome.run_simulation_step, IdpCreateHome.run_simulation_step_gas,
      IdpCreateHome.apply_door_exchange, room_respiration_breach_inactive,
      IdpCreateHome.get_room_by_id, idpTestRoom, idpClosedDoor12,
      IdpCreateHome.SIM_DT_HOURS, IdpCreateHome.SIM_STEP_REAL_TIME_SECONDS,
      IdpCreateHome.SIM_TIME_SCALE_FACTOR,
      IdpCreateHome.DOOR_FLOW_RATE_CLOSED_PER_HOUR]
  have hA : pymax 0 (a + (b - a) * (1 / 72000)) = a + (b - a) * (1 / 72000) := by
    rw [pymax_eq_max, max_eq_right]
    nlinarith
  have hB : pymax 0 (b - (b - a) * (1 / 72000)) = b - (b - a) * (1 / 72000) := by
    rw [pymax_eq_max, max_eq_right]
    nlinarith
  refine ⟨by norm_num [IdpCreateHome.DOOR_FLOW_RATE_CLOSED_PER_HOUR], ?_, ?_, ?_⟩ <;>
    rw [hrun] <;> simp only [List.getD, List.get?, Option.getD, List.map] <;>
    (try rw [hA]) <;> (try rw [hB]) <;> nlinarith

/-- Witness for C1: the invariant at a concrete two-room configuration
after one step with an open door. -/
theorem C1_amended_idp_levels_nonneg_witness :
    0 ≤ ((IdpCreateHome.run_steps [(1, [idpOpenDoor12])]
        [idpTestRoom 1 21, idpTestRoom 2 15]).headD (idpTestRoom 1 21)).o2_level
    ∧ 0 ≤ ((IdpCreateHome.run_steps [(1, [idpOpenDoor12])]
        [idpTestRoom 1 21, idpTestRoom 2 15]).headD (idpTestRoom 1 21)).co2_level :=
  C1_amended_idp_levels_nonneg [(1, [idpOpenDoor12])]
    [idpTestRoom 1 21, idpTestRoom 2 15]
    (by norm_num [idpTestRoom]) _
    (by norm_num [IdpCreateHome.run_steps, IdpCreateHome.run_simulation_step_gas,
      IdpCreateHome.apply_door_exchange, room_respiration_breach_inactive,
      IdpCreateHome.get_room_by_id, idpTestRoom, idpOpenDoor12,
      IdpCreateHome.DOOR_FLOW_RATE_OPEN_PER_HOUR, IdpCreateHome.MARS_O2_PERCENTAGE,
      IdpCreateHome.MARS_CO2_PPM, IdpCreateHome.MARS_CO2_PERCENTAGE, pymax])

/-- Witness for C2: with zero sensors the reconstructed field equals the
ground truth at a concrete cell and the status is a fallback string. -/
theorem C2_gp_fallback_truth_witness :
    (IdpCreateHome.update_gp_model_and_predict estInit IdpCreateHome.Gas.O2 true
        [] [] (Except.ok truthO2Field) truthO2Field
        truthCO2Field).1.gp_reconstructed_field (0, 0) = truthO2Field (0, 0)
    ∧ (IdpCreateHome.update_gp_model_and_predict estInit IdpCreateHome.Gas.O2 true
        [] [] (Except.ok truthO2Field) truthO2Field truthCO2Field).2
      ∈ IdpCreateHome.fallback_statuses IdpCreateHome.Gas.O2 :=
  ⟨(C2_gp_fallback_truth estInit IdpCreateHome.Gas.O2 true [] []
      (Except.ok truthO2Field) truthO2Field truthCO2Field
      (Or.inr (Or.inl rfl))).1 (0, 0),
   (C2_gp_fallback_truth estInit IdpCreateHome.Gas.O2 true [] []
      (Except.ok truthO2Field) truthO2Field truthCO2Field
      (Or.inr (Or.inl rfl))).2⟩

/-- Witness for C4: concrete respiration values in both variants. -/
theorem C4_amended_respiration_witness :
    (IdpCreateHome.room_respiration_breach 1
        { id := 1, o2_level := 21, co2_level := 400, population := 2,
          breach_level := 0, volume_liters := 1000 }).o2_level
      = pymax 0 (21 - IdpCreateHome.HUMAN_O2_CONSUMPTION_PER_HOUR_PERSON
          * ((2 : ℕ) : ℚ) * 1)
    ∧ (BetterSample.respiration_update 1 (bsTestRoom 1 100 21 2)).o2_level
      = pymax 0 (21 - BetterSample.HUMAN_O2_CONSUMPTION_PER_HOUR
          * ((2 : ℕ) : ℚ) * 1 * (100 / pymax 100 10)) := by
  have h := C4_amended_respiration 1
    { id := 1, o2_level := 21, co2_level := 400, population := 2,
      breach_level := 0, volume_liters := 1000 }
    (bsTestRoom 1 100 21 2)
    (by norm_num) (by norm_num) (by norm_num) (by norm_num [bsTestRoom])
  exact ⟨h.1, h.2.2.1⟩

/-- Witness for C5: a concrete read in each variant (idpCreateHome sensor
with variances 4 and 9, so scales 2 and 3). -/
theorem C5_amended_sensor_read_witness :
    (IdpCreateHome.read_gas_levels
        { x := 0, y := 0, o2_variance := 4, co2_variance := 9,
          sensing_radius := 7.5, last_o2_reading := none,
          last_co2_reading := none } 21 400 2 3 1 1).1.1
      = pymax 0 (21 + 2 * 1)
    ∧ (BetterSample.read_o2 bsSensor4 21 1).1
      = pymax 0 (21 + bsSensor4.variance_o2 * 1) := by
  have h := C5_amended_sensor_read
    { x := 0, y := 0, o2_variance := 4, co2_variance := 9,
      sensing_radius := 7.5, last_o2_reading := none, last_co2_reading := none }
    bsSensor4 21 400 1 1 2 3 21 1
    (by norm_num) (by norm_num) (by norm_num) (by norm_num)
  exact ⟨h.1.1, h.2.1⟩

/-- Witness for C6: the closed-door leak at levels 15 and 21. -/
theorem C6_amended_idp_closed_door_leak_witness :
    0 < IdpCreateHome.DOOR_FLOW_RATE_CLOSED_PER_HOUR
    ∧ (15 : ℚ) < (((IdpCreateHome.run_simulation_step
          [idpTestRoom 1 15, idpTestRoom 2 21]
          [idpClosedDoor12]).map IdpCreateHome.Room.o2_level).getD 0 0)
    ∧ (((IdpCreateHome.run_simulation_step [idpTestRoom 1 15, idpTestRoom 2 21]
          [idpClosedDoor12]).map IdpCreateHome.Room.o2_level).getD 1 0) < 21
    ∧ (((IdpCreateHome.run_simulation_step [idpTestRoom 1 15, idpTestRoom 2 21]
          [idpClosedDoor12]).map IdpCreateHome.Room.o2_level).getD 0 0)
      < (((IdpCreateHome.run_simulation_step [idpTestRoom 1 15, idpTestRoom 2 21]
          [idpClosedDoor12]).map IdpCreateHome.Room.o2_level).getD 1 0) :=
  C6_amended_idp_closed_door_leak 15 21 (by norm_num) (by norm_num)

/-- Witness for C7: a successful fit whose raw prediction is the constant
100 is exposed clipped into the O2 range. -/
theorem C7_prediction_clipped_witness :
    (IdpCreateHome.update_gp_model_and_predict estInit IdpCreateHome.Gas.O2 true
        [estSensor] [((0, 0), 21)] (Except.ok (fun _ => 100)) truthO2Field
        truthCO2Field).1.gp_reconstructed_field (0, 0)
      = IdpCreateHome.np_clip 0 (IdpCreateHome.max_clip IdpCreateHome.Gas.O2) 100
    ∧ 0 ≤ (IdpCreateHome.update_gp_model_and_predict estInit IdpCreateHome.Gas.O2 true
        [estSensor] [((0, 0), 21)] (Except.ok (fun _ => 100)) truthO2Field
        truthCO2Field).1.gp_reconstructed_field (0, 0)
    ∧ (IdpCreateHome.update_gp_model_and_predict estInit IdpCreateHome.Gas.O2 true
        [estSensor] [((0, 0), 21)] (Except.ok (fun _ => 100)) truthO2Field
        truthCO2Field).1.gp_reconstructed_field (0, 0)
      ≤ IdpCreateHome.max_clip IdpCreateHome.Gas.O2 := by
  have h := C7_prediction_clipped estInit IdpCreateHome.Gas.O2 [estSensor]
    [((0, 0), 21)] (fun _ => 100) truthO2Field truthCO2Field rfl
    (by simp) (by norm_num)
  exact ⟨h.1 (0, 0), (h.2.1 (0, 0)).1, (h.2.1 (0, 0)).2⟩

/-- Witness for C8: the cell centered at (35, 35) lies outside a concrete
rectangle and circle, so all four fields hold the ambient baseline there. -/
theorem C8_ambient_outside_rooms_witness :
    IdpCreateHome.rebuild_ground_truth_o2 (fun _ _ => true)
      [{ shape := IdpCreateHome.ShapeGeom.rect 100 100 50 50,
         o2_level := 21, co2_level := 400 },
       { shape := IdpCreateHome.ShapeGeom.circle 300 300 40,
         o2_level := 18, co2_level := 500 }] 0 0
      = IdpCreateHome.MARS_O2_PERCENTAGE
    ∧ IdpCreateHome.init_gas_fields_co2
      [{ shape := IdpCreateHome.ShapeGeom.rect 100 100 50 50,
         o2_level := 21, co2_level := 400 },
       { shape := IdpCreateHome.ShapeGeom.circle 300 300 40,
         o2_level := 18, co2_level := 500 }] 0 0
      = IdpCreateHome.MARS_CO2_PPM := by
  have h := C8_ambient_outside_rooms (fun _ _ => true)
    [{ shape := IdpCreateHome.ShapeGeom.rect 100 100 50 50,
       o2_level := 21, co2_level := 400 },
     { shape := IdpCreateHome.ShapeGeom.circle 300 300 40,
       o2_level := 18, co2_level := 500 }] 0 0
    (by norm_num [IdpCreateHome.contains_point,
      IdpCreateHome.sim_to_canvas_coords_center, IdpCreateHome.CELL_SIZE,
      IdpCreateHome.AXIS_MARGIN])
  exact ⟨h.1, h.2.2.2⟩
